import Mathlib

/-!
Verification of the inline-archive filter of the aqsis repository
(src/libs/riutil/inlinearchive_filter.cpp, class `InlineArchiveFilter`).

The filter intercepts RI scene-description calls.  Calls between
`ArchiveBegin`/`ArchiveEnd` (and `ObjectBegin`/`ObjectEnd`) are buffered into
named in-memory streams; a later `ReadArchive` (resp. `ObjectInstance`) with a
recorded name replays the stream into the head of the filter pipeline.  We
embed the member state of the C++ class and its dispatch behaviour as
executable Lean functions and prove the specified properties about them.
-/

namespace Aqsis

/-- One entry of an RI parameter list: a declaration token together with its
payload values.  The filter never inspects parameter lists, so the payload is
abstracted to integers. -/
structure Param where
  token : String
  values : List Int
deriving DecidableEq, Repr

/-- An RI parameter list (`Ri::ParamList`), passed through uninterpreted. -/
abbrev PList := List Param

/-- One RI operation as received by `InlineArchiveFilter`.  The six scope
operations and `ArchiveRecord` have hand-written bodies in the C++ source;
`declare` embeds the generated `Declare` method, and `generic` stands for any
one of the remaining ~100 generated pass-through methods, which all share the
identical body `if (m_currCache) m_currCache->push_back(...) else
nextFilter().Op(...)` (see the code-generator template at lines 186-210 of
inlinearchive_filter.cpp); `proc` is the procedure name and `args` its
argument payload. -/
inductive Cmd where
  | archiveBegin (name : String) (pList : PList)
  | archiveEnd
  | readArchive (name : String) (callback : Nat) (pList : PList)
  | objectBegin (name : String)
  | objectEnd
  | objectInstance (name : String)
  | archiveRecord (ty : String) (str : String)
  | declare (name : String) (decl : String)
  | generic (proc : String) (args : List Int)
deriving DecidableEq, Repr

/-- Error codes reported through the error-handler collaborator.  The filter
only ever reports `EqE_BadHandle` (unresolved object-instance name). -/
inductive ErrorCode where
  | EqE_BadHandle
deriving DecidableEq, Repr

/-- An externally observable effect of dispatching one call: either an
operation forwarded to the next filter stage (`nextFilter()`), or an error
reported to `services().errorHandler()`. -/
inductive Output where
  | fwd (c : Cmd)
  | err (code : ErrorCode) (msg : String)
deriving DecidableEq, Repr

/-- Modelled from the spec: class `CachedRiStream` (declared in
ricxx_cache.h, which is not part of the given sources) is the CommandLog of
the spec — a named, ordered, append-only sequence of commands
(spec sections 3 and 4.2).  `push_back` appends at the end. -/
structure CachedRiStream where
  name : String
  cmds : List Cmd
deriving DecidableEq, Repr

/-- Identity of the stream currently receiving appends: the C++ field
`m_currCache` is a pointer to a heap-allocated `CachedRiStream` owned by one
of the two registry vectors.  The vectors only ever grow by `push_back`, so a
pointer is faithfully represented by the owning registry plus the index the
stream had when it was created. -/
inductive CacheId where
  | arch (i : Nat)
  | obj (i : Nat)
deriving DecidableEq, Repr

/-- The member state of class `InlineArchiveFilter` (lines 51-56 of
inlinearchive_filter.cpp): `m_archives`, `m_objectInstances`, `m_currCache`,
`m_nested` and `m_inObject`.  `m_nested` is a C++ `int`, but it is only ever
decremented under the guard `m_nested != 0`, so it never leaves `Nat`. -/
structure InlineArchiveFilter where
  archives : List CachedRiStream
  objectInstances : List CachedRiStream
  currCache : Option CacheId
  nested : Nat
  inObject : Bool
deriving DecidableEq, Repr

/-- The state established by the `InlineArchiveFilter` constructor
(lines 59-66): empty registries, null current cache, zero nesting, not in an
object. -/
def initFilter : InlineArchiveFilter :=
  { archives := [], objectInstances := [], currCache := none,
    nested := 0, inObject := false }

/-- Replace the element at index `i` of a list by its image under `f`
(out-of-range indices leave the list unchanged). -/
def modifyIdx (f : α → α) : Nat → List α → List α
  | _, [] => []
  | 0, x :: xs => f x :: xs
  | n + 1, x :: xs => x :: modifyIdx f n xs

/-- `m_currCache->push_back(cmd)`: append `cmd` to the stream the current
cache points at; a null current cache appends nowhere. -/
def pushCache (s : InlineArchiveFilter) (c : Cmd) : InlineArchiveFilter :=
  match s.currCache with
  | none => s
  | some (.arch i) =>
      { s with archives :=
          modifyIdx (fun st => { st with cmds := st.cmds ++ [c] }) i s.archives }
  | some (.obj i) =>
      { s with objectInstances :=
          modifyIdx (fun st => { st with cmds := st.cmds ++ [c] }) i s.objectInstances }

/-- The linear registry search of `ReadArchive` (lines 108-117) and
`ObjectInstance` (lines 166-173): scan from index 0 upward and return the
first stream whose name matches. -/
def findStream (name : String) : List CachedRiStream → Option CachedRiStream
  | [] => none
  | st :: rest => if st.name = name then some st else findStream name rest

/-- Modelled from the spec: `CachedRiStream::replay(target)` (declared in
ricxx_cache.h, not part of the given sources) re-emits every contained
command, in append order, to the target processor (spec section 4.2), and the
replay target `services().firstFilter()` is the head of the pipeline, which
re-enters this same dispatch (spec sections 4.3 and 6; we model a pipeline
whose head is this filter).  `replayWith d` folds the per-command processor
`d` over a command list, threading the filter state and concatenating the
outputs; it fails iff some step fails. -/
def replayWith (d : InlineArchiveFilter → Cmd → Option (InlineArchiveFilter × List Output)) :
    InlineArchiveFilter → List Cmd → Option (InlineArchiveFilter × List Output)
  | s, [] => some (s, [])
  | s, c :: cs =>
      match d s c with
      | none => none
      | some (s1, o1) =>
          match replayWith d s1 cs with
          | none => none
          | some (s2, o2) => some (s2, o1 ++ o2)

/-- Dispatch of one RI call against the filter, embedding the method bodies of
`InlineArchiveFilter` (lines 76-218 of inlinearchive_filter.cpp) plus the
generated pass-through methods.  Replay re-enters dispatch through the
pipeline head, which is unbounded in general (a self-referential archive
recurses forever), so dispatch carries a fuel counter that is consumed once
per replay nesting level; `none` means the fuel ran out. -/
def dispatch (fuel : Nat) (s : InlineArchiveFilter) (c : Cmd) :
    Option (InlineArchiveFilter × List Output) :=
  match fuel with
  | 0 => none
  | fuel' + 1 =>
    match c with
    | .archiveBegin n p =>
        -- lines 76-86: if recording, bump m_nested and buffer; else create a
        -- new archive stream and make it current.
        if s.currCache.isSome then
          some (pushCache { s with nested := s.nested + 1 } (.archiveBegin n p), [])
        else
          some ({ s with archives := s.archives ++ [⟨n, []⟩],
                         currCache := some (.arch s.archives.length) }, [])
    | .archiveEnd =>
        -- lines 88-97: if recording and nested, buffer and decrement; else
        -- null the current cache.
        if s.currCache.isSome ∧ s.nested ≠ 0 then
          some (pushCache { s with nested := s.nested - 1 } .archiveEnd, [])
        else
          some ({ s with currCache := none }, [])
    | .readArchive n cb p =>
        -- lines 99-121: buffer while recording; else replay a found archive
        -- into the pipeline head, or forward unchanged when not found.
        if s.currCache.isSome then
          some (pushCache s (.readArchive n cb p), [])
        else
          match findStream n s.archives with
          | some st => replayWith (fun s1 c1 => dispatch fuel' s1 c1) s st.cmds
          | none => some (s, [.fwd (.readArchive n cb p)])
    | .objectBegin n =>
        -- lines 123-138: buffer while recording; else create a new object
        -- stream, make it current and raise the object flag.
        if s.currCache.isSome then
          some (pushCache s (.objectBegin n), [])
        else
          some ({ s with objectInstances := s.objectInstances ++ [⟨n, []⟩],
                         currCache := some (.obj s.objectInstances.length),
                         inObject := true }, [])
    | .objectEnd =>
        -- lines 140-156: buffer when recording an archive; terminate the
        -- recording when the object flag is up; otherwise ignore.
        if s.currCache.isSome ∧ s.inObject = false then
          some (pushCache s .objectEnd, [])
        else if s.currCache.isSome then
          some ({ s with inObject := false, currCache := none }, [])
        else
          some (s, [])
    | .objectInstance n =>
        -- lines 158-177: buffer while recording; else replay a found object
        -- stream into the pipeline head, or report EqE_BadHandle.
        if s.currCache.isSome then
          some (pushCache s (.objectInstance n), [])
        else
          match findStream n s.objectInstances with
          | some st => replayWith (fun s1 c1 => dispatch fuel' s1 c1) s st.cmds
          | none =>
              some (s, [.err .EqE_BadHandle ("Bad object name \"" ++ n ++ "\"")])
    | .archiveRecord ty str =>
        -- lines 179-183: forwarded only when not recording; while recording
        -- the call is dropped (it is not pushed into the cache).
        if s.currCache.isSome then
          some (s, [])
        else
          some (s, [.fwd (.archiveRecord ty str)])
    | .declare nm dc =>
        -- lines 212-218: buffer while recording, else forward.
        if s.currCache.isSome then
          some (pushCache s (.declare nm dc), [])
        else
          some (s, [.fwd (.declare nm dc)])
    | .generic proc args =>
        -- generated pass-through body (template at lines 194-201).
        if s.currCache.isSome then
          some (pushCache s (.generic proc args), [])
        else
          some (s, [.fwd (.generic proc args)])

/-! ## Properties -/

/-- Claim C1: dispatching `[BeginArchive("X"), Foo(1), BeginArchive("Y"),
Bar(2), EndArchive(), Baz(3), EndArchive(), ReadArchive("X")]` from the
initial Idle state forwards nothing during the first seven calls, forwards
exactly `[Foo(1), Baz(3)]` on the `ReadArchive` trigger (the replay re-enters
dispatch from Idle and re-derives scope behaviour), and afterwards the archive
registry holds a stream named "Y" containing exactly `[Bar(2)]`. -/
theorem c1_record_replay_scenario :
    replayWith (fun s c => dispatch 2 s c) initFilter
        [ .archiveBegin "X" [], .generic "Foo" [1], .archiveBegin "Y" [],
          .generic "Bar" [2], .archiveEnd, .generic "Baz" [3], .archiveEnd ]
      = some (⟨[⟨"X", [.generic "Foo" [1], .archiveBegin "Y" [], .generic "Bar" [2],
                       .archiveEnd, .generic "Baz" [3]]⟩], [], none, 0, false⟩, [])
    ∧ dispatch 2
        ⟨[⟨"X", [.generic "Foo" [1], .archiveBegin "Y" [], .generic "Bar" [2],
                 .archiveEnd, .generic "Baz" [3]]⟩], [], none, 0, false⟩
        (.readArchive "X" 0 [])
      = some (⟨[⟨"X", [.generic "Foo" [1], .archiveBegin "Y" [], .generic "Bar" [2],
                       .archiveEnd, .generic "Baz" [3]]⟩,
                ⟨"Y", [.generic "Bar" [2]]⟩], [], none, 0, false⟩,
              [.fwd (.generic "Foo" [1]), .fwd (.generic "Baz" [3])])
    ∧ findStream "Y"
        [⟨"X", [.generic "Foo" [1], .archiveBegin "Y" [], .generic "Bar" [2],
                .archiveEnd, .generic "Baz" [3]]⟩, ⟨"Y", [.generic "Bar" [2]]⟩]
      = some ⟨"Y", [.generic "Bar" [2]]⟩ := by
  refine ⟨by decide, by decide, by decide⟩

/-- Claim C4: `BeginArchive(A); BeginArchive(B); EndArchive(); EndArchive()`
from Idle yields exactly one closed archive stream, named "A", containing
`[BeginArchive(B), EndArchive()]` as buffered operations; no stream named "B"
is created, so a later `ReadArchive("B")` while Idle does not find "B" and
forwards the call downstream. -/
theorem c4_nesting_containment :
    replayWith (fun s c => dispatch 1 s c) initFilter
        [ .archiveBegin "A" [], .archiveBegin "B" [], .archiveEnd, .archiveEnd ]
      = some (⟨[⟨"A", [.archiveBegin "B" [], .archiveEnd]⟩], [], none, 0, false⟩, [])
    ∧ findStream "B" [⟨"A", [.archiveBegin "B" [], .archiveEnd]⟩] = none
    ∧ dispatch 1 ⟨[⟨"A", [.archiveBegin "B" [], .archiveEnd]⟩], [], none, 0, false⟩
        (.readArchive "B" 0 [])
      = some (⟨[⟨"A", [.archiveBegin "B" [], .archiveEnd]⟩], [], none, 0, false⟩,
              [.fwd (.readArchive "B" 0 [])]) := by
  refine ⟨by decide, by decide, by decide⟩

/-- Claim C3: dispatching `ObjectInstance(n)` while Idle with no object
stream named `n` reports exactly one `(EqE_BadHandle, message)` error,
forwards nothing, and leaves the filter state unchanged (so subsequent
dispatch continues normally from the same state). -/
theorem objectInstance_unknown_reports_one_error (fuel : Nat)
    (s : InlineArchiveFilter) (n : String)
    (h : s.currCache = none) (hf : findStream n s.objectInstances = none) :
    dispatch (fuel + 1) s (.objectInstance n)
      = some (s, [.err .EqE_BadHandle ("Bad object name \"" ++ n ++ "\"")]) := by
  simp [dispatch, h, hf]

/-- Witness for `objectInstance_unknown_reports_one_error` at the initial
state and name "Q". -/
theorem objectInstance_unknown_reports_one_error_witness :
    dispatch 1 initFilter (.objectInstance "Q")
      = some (initFilter, [.err .EqE_BadHandle "Bad object name \"Q\""]) :=
  objectInstance_unknown_reports_one_error 0 initFilter "Q" rfl rfl

/-- Claim C8: `EndObjectInstance` (method `ObjectEnd`) dispatched while the
current cache is null is a no-op: no error, no forwarded operation, and the
whole filter state (registries, current cache, nesting counter, object flag)
is unchanged. -/
theorem objectEnd_idle_noop (fuel : Nat) (s : InlineArchiveFilter)
    (h : s.currCache = none) :
    dispatch (fuel + 1) s .objectEnd = some (s, []) := by
  simp [dispatch, h]

/-- Witness for `objectEnd_idle_noop` at the initial state. -/
theorem objectEnd_idle_noop_witness :
    dispatch 1 initFilter Cmd.objectEnd = some (initFilter, []) :=
  objectEnd_idle_noop 0 initFilter rfl

/-- Claim C2: `ReadArchive(n)` dispatched while the current cache is null
either replays a found archive stream into the pipeline head — the result of
the call is exactly the result of that replay, so nothing is forwarded for
the call itself and no error is reported — or, when no archive stream is
named `n`, forwards the call unchanged (same name, callback and parameter
list) with no error and no state change. -/
theorem readArchive_idle_replay_or_forward (fuel : Nat)
    (s : InlineArchiveFilter) (n : String) (cb : Nat) (p : PList)
    (h : s.currCache = none) :
    (∀ st, findStream n s.archives = some st →
        dispatch (fuel + 1) s (.readArchive n cb p)
          = replayWith (fun s1 c1 => dispatch fuel s1 c1) s st.cmds)
    ∧ (findStream n s.archives = none →
        dispatch (fuel + 1) s (.readArchive n cb p)
          = some (s, [.fwd (.readArchive n cb p)])) := by
  constructor
  · intro st hf
    simp [dispatch, h, hf]
  · intro hf
    simp [dispatch, h, hf]

/-- Witness for `readArchive_idle_replay_or_forward`: a registry holding one
archive "A" replays it on `ReadArchive("A")` and forwards `ReadArchive("B")`
unchanged. -/
theorem readArchive_idle_replay_or_forward_witness :
    dispatch 2 ⟨[⟨"A", [.generic "Foo" [1]]⟩], [], none, 0, false⟩
        (.readArchive "A" 7 [⟨"P", [4]⟩])
      = replayWith (fun s1 c1 => dispatch 1 s1 c1)
          ⟨[⟨"A", [.generic "Foo" [1]]⟩], [], none, 0, false⟩
          [Cmd.generic "Foo" [1]]
    ∧ dispatch 2 ⟨[⟨"A", [.generic "Foo" [1]]⟩], [], none, 0, false⟩
        (.readArchive "B" 7 [⟨"P", [4]⟩])
      = some (⟨[⟨"A", [.generic "Foo" [1]]⟩], [], none, 0, false⟩,
              [.fwd (.readArchive "B" 7 [⟨"P", [4]⟩])]) :=
  ⟨(readArchive_idle_replay_or_forward 1
      ⟨[⟨"A", [.generic "Foo" [1]]⟩], [], none, 0, false⟩ "A" 7 [⟨"P", [4]⟩] rfl).1
      ⟨"A", [.generic "Foo" [1]]⟩ (by decide),
   (readArchive_idle_replay_or_forward 1
      ⟨[⟨"A", [.generic "Foo" [1]]⟩], [], none, 0, false⟩ "B" 7 [⟨"P", [4]⟩] rfl).2
      (by decide)⟩

/-- First-match behaviour of the registry scan: a stream whose name matches,
preceded only by streams whose names do not match, is the one returned. -/
theorem findStream_first_match (n : String) (st : CachedRiStream)
    (post : List CachedRiStream) :
    ∀ pre : List CachedRiStream, st.name = n → (∀ st2 ∈ pre, st2.name ≠ n) →
      findStream n (pre ++ st :: post) = some st := by
  intro pre
  induction pre with
  | nil =>
      intro hn _
      simp [findStream, hn]
  | cons hd tl ih =>
      intro hn hpre
      have hhd : hd.name ≠ n := hpre hd (List.mem_cons_self hd tl)
      have htl : ∀ st2 ∈ tl, st2.name ≠ n := fun st2 hm => hpre st2 (List.mem_cons_of_mem hd hm)
      simp [findStream, hhd, ih hn htl]

/-- Claim C10: when several streams in one registry carry the same name, the
lookup triggered by `ReadArchive(n)` (archive registry) or `ObjectInstance(n)`
(object registry) while Idle replays the earliest-recorded stream of that
name — the one at the lowest index, since recording appends at the back —
and never a later one. -/
theorem duplicate_names_earliest_wins (fuel : Nat)
    (s : InlineArchiveFilter) (n : String) (cb : Nat) (p : PList)
    (st : CachedRiStream) (pre post : List CachedRiStream)
    (h : s.currCache = none) (hn : st.name = n)
    (hpre : ∀ st2 ∈ pre, st2.name ≠ n) :
    (s.archives = pre ++ st :: post →
        dispatch (fuel + 1) s (.readArchive n cb p)
          = replayWith (fun s1 c1 => dispatch fuel s1 c1) s st.cmds)
    ∧ (s.objectInstances = pre ++ st :: post →
        dispatch (fuel + 1) s (.objectInstance n)
          = replayWith (fun s1 c1 => dispatch fuel s1 c1) s st.cmds) := by
  constructor
  · intro ha
    have hf : findStream n s.archives = some st := by
      rw [ha]; exact findStream_first_match n st post pre hn hpre
    simp [dispatch, h, hf]
  · intro ha
    have hf : findStream n s.objectInstances = some st := by
      rw [ha]; exact findStream_first_match n st post pre hn hpre
    simp [dispatch, h, hf]

/-- Witness for `duplicate_names_earliest_wins`: both registries hold two
streams named "n"; lookup replays the first of each. -/
theorem duplicate_names_earliest_wins_witness :
    dispatch 2 ⟨[⟨"n", [.generic "Foo" [1]]⟩, ⟨"n", [.generic "Bar" [2]]⟩],
                [⟨"n", [.generic "Baz" [3]]⟩, ⟨"n", [.generic "Qux" [4]]⟩],
                none, 0, false⟩ (.readArchive "n" 0 [])
      = replayWith (fun s1 c1 => dispatch 1 s1 c1)
          ⟨[⟨"n", [.generic "Foo" [1]]⟩, ⟨"n", [.generic "Bar" [2]]⟩],
           [⟨"n", [.generic "Baz" [3]]⟩, ⟨"n", [.generic "Qux" [4]]⟩],
           none, 0, false⟩ [Cmd.generic "Foo" [1]]
    ∧ dispatch 2 ⟨[⟨"n", [.generic "Foo" [1]]⟩, ⟨"n", [.generic "Bar" [2]]⟩],
                  [⟨"n", [.generic "Baz" [3]]⟩, ⟨"n", [.generic "Qux" [4]]⟩],
                  none, 0, false⟩ (.objectInstance "n")
      = replayWith (fun s1 c1 => dispatch 1 s1 c1)
          ⟨[⟨"n", [.generic "Foo" [1]]⟩, ⟨"n", [.generic "Bar" [2]]⟩],
           [⟨"n", [.generic "Baz" [3]]⟩, ⟨"n", [.generic "Qux" [4]]⟩],
           none, 0, false⟩ [Cmd.generic "Baz" [3]] :=
  ⟨(duplicate_names_earliest_wins 1
      ⟨[⟨"n", [.generic "Foo" [1]]⟩, ⟨"n", [.generic "Bar" [2]]⟩],
       [⟨"n", [.generic "Baz" [3]]⟩, ⟨"n", [.generic "Qux" [4]]⟩],
       none, 0, false⟩ "n" 0 [] ⟨"n", [.generic "Foo" [1]]⟩
      [] [⟨"n", [.generic "Bar" [2]]⟩] rfl rfl (by simp)).1 rfl,
   (duplicate_names_earliest_wins 1
      ⟨[⟨"n", [.generic "Foo" [1]]⟩, ⟨"n", [.generic "Bar" [2]]⟩],
       [⟨"n", [.generic "Baz" [3]]⟩, ⟨"n", [.generic "Qux" [4]]⟩],
       none, 0, false⟩ "n" 0 [] ⟨"n", [.generic "Baz" [3]]⟩
      [] [⟨"n", [.generic "Qux" [4]]⟩] rfl rfl (by simp)).2 rfl⟩

/-- Claim C5 fails on the code: with an object-instance recording open
(current cache on object stream "O", object flag set, nesting counter 0),
`EndArchive` is NOT buffered — the stream "O" stays empty — and the recording
does not stay open: the current cache is nulled (lines 88-97 take the `else`
branch because `m_nested` is 0), while the object flag stays raised. -/
theorem endArchive_inObject_counterexample :
    dispatch 1 ⟨[], [⟨"O", []⟩], some (.obj 0), 0, true⟩ Cmd.archiveEnd
      = some (⟨[], [⟨"O", []⟩], none, 0, true⟩, [])
    ∧ dispatch 1 ⟨[], [⟨"O", []⟩], some (.obj 0), 0, true⟩ Cmd.archiveEnd
      ≠ some (pushCache ⟨[], [⟨"O", []⟩], some (.obj 0), 0, true⟩ Cmd.archiveEnd, []) := by
  refine ⟨by decide, by decide⟩

/-- Claim C5 (amended): `EndArchive` dispatched while recording an object
instance is buffered into the current object stream (decrementing the nesting
counter) only when the nesting counter is nonzero; when the counter is zero
the call instead terminates the recording — the current cache is nulled,
nothing is buffered, and the object flag is left raised. -/
theorem endArchive_inObject_amended (fuel : Nat) (s : InlineArchiveFilter)
    (i : Nat) (hc : s.currCache = some (.obj i)) (_ho : s.inObject = true) :
    (s.nested ≠ 0 →
        dispatch (fuel + 1) s .archiveEnd
          = some (pushCache { s with nested := s.nested - 1 } .archiveEnd, []))
    ∧ (s.nested = 0 →
        dispatch (fuel + 1) s .archiveEnd
          = some ({ s with currCache := none }, [])) := by
  constructor
  · intro hn
    simp [dispatch, hc, hn]
  · intro hn
    simp [dispatch, hc, hn]

/-- Witness for `endArchive_inObject_amended`: both branches at concrete
object-recording states with nesting counter 1 and 0. -/
theorem endArchive_inObject_amended_witness :
    dispatch 1 ⟨[], [⟨"O", [.archiveBegin "A" []]⟩], some (.obj 0), 1, true⟩ Cmd.archiveEnd
      = some (⟨[], [⟨"O", [.archiveBegin "A" [], .archiveEnd]⟩], some (.obj 0), 0, true⟩, [])
    ∧ dispatch 1 ⟨[], [⟨"O", []⟩], some (.obj 0), 0, true⟩ Cmd.archiveEnd
      = some (⟨[], [⟨"O", []⟩], none, 0, true⟩, []) :=
  ⟨(endArchive_inObject_amended 0
      ⟨[], [⟨"O", [.archiveBegin "A" []]⟩], some (.obj 0), 1, true⟩ 0 rfl rfl).1
      (by decide),
   (endArchive_inObject_amended 0
      ⟨[], [⟨"O", []⟩], some (.obj 0), 0, true⟩ 0 rfl rfl).2 rfl⟩

/-- Claim C6 fails on the code for `ArchiveRecord`: while recording (current
cache on archive stream "A"), `ArchiveRecord` is dropped — the state is
returned unchanged, so nothing was appended to the current stream (appending
would have produced the distinct state shown in the second conjunct). -/
theorem archiveRecord_recording_counterexample :
    dispatch 1 ⟨[⟨"A", []⟩], [], some (.arch 0), 0, false⟩
        (.archiveRecord "comment" "hi")
      = some (⟨[⟨"A", []⟩], [], some (.arch 0), 0, false⟩, [])
    ∧ pushCache ⟨[⟨"A", []⟩], [], some (.arch 0), 0, false⟩
        (.archiveRecord "comment" "hi")
      ≠ ⟨[⟨"A", []⟩], [], some (.arch 0), 0, false⟩ := by
  refine ⟨by decide, by decide⟩

/-- Claim C6 (amended): every non-scope operation other than `ArchiveRecord`
dispatched while recording is appended to the current stream and not
forwarded (shown for `Declare` and for the generated pass-through methods);
`ArchiveRecord` dispatched while recording is neither appended nor forwarded
— the call is discarded and the state unchanged. -/
theorem recording_buffers_non_scope_amended (fuel : Nat)
    (s : InlineArchiveFilter) (nm dc proc ty str : String) (args : List Int)
    (h : s.currCache.isSome = true) :
    dispatch (fuel + 1) s (.declare nm dc)
      = some (pushCache s (.declare nm dc), [])
    ∧ dispatch (fuel + 1) s (.generic proc args)
      = some (pushCache s (.generic proc args), [])
    ∧ dispatch (fuel + 1) s (.archiveRecord ty str) = some (s, []) := by
  refine ⟨?_, ?_, ?_⟩ <;> simp [dispatch, h]

/-- Witness for `recording_buffers_non_scope_amended` at a concrete recording
state. -/
theorem recording_buffers_non_scope_amended_witness :
    dispatch 1 ⟨[⟨"A", []⟩], [], some (.arch 0), 0, false⟩
        (.declare "Kd" "uniform float")
      = some (pushCache ⟨[⟨"A", []⟩], [], some (.arch 0), 0, false⟩
                (.declare "Kd" "uniform float"), [])
    ∧ dispatch 1 ⟨[⟨"A", []⟩], [], some (.arch 0), 0, false⟩
        (.generic "Sphere" [1])
      = some (pushCache ⟨[⟨"A", []⟩], [], some (.arch 0), 0, false⟩
                (.generic "Sphere" [1]), [])
    ∧ dispatch 1 ⟨[⟨"A", []⟩], [], some (.arch 0), 0, false⟩
        (.archiveRecord "comment" "hi")
      = some (⟨[⟨"A", []⟩], [], some (.arch 0), 0, false⟩, []) :=
  recording_buffers_non_scope_amended 0
    ⟨[⟨"A", []⟩], [], some (.arch 0), 0, false⟩
    "Kd" "uniform float" "Sphere" "comment" "hi" [1] rfl

/-- Claim C7 fails on the code: with an object-instance recording open
(object flag up, nesting counter 0 — state InObjectInstance, not InArchive),
`BeginArchive` increments the nesting counter from 0 to 1 (lines 78-82 test
only `m_currCache`, not whether the recording is an archive). -/
theorem nested_counter_counterexample :
    dispatch 1 ⟨[], [⟨"O", []⟩], some (.obj 0), 0, true⟩ (.archiveBegin "A" [])
      = some (⟨[], [⟨"O", [.archiveBegin "A" []]⟩], some (.obj 0), 1, true⟩, []) := by
  decide

/-- Claim C7 (amended): the nesting counter increases exactly when
`BeginArchive` arrives while any recording is active (archive or object
instance); it decreases exactly when `EndArchive` arrives while a recording
is active with a nonzero counter; while Idle, `BeginArchive` creates a fresh
empty stream (the outer Begin is not buffered into its own stream) and leaves
the counter unchanged, and `EndArchive` merely nulls the current cache,
leaving the counter and every recorded stream unchanged (the closing End is
not buffered). -/
theorem nested_counter_amended (fuel : Nat) (s : InlineArchiveFilter)
    (n : String) (p : PList) :
    (s.currCache.isSome = true →
        dispatch (fuel + 1) s (.archiveBegin n p)
          = some (pushCache { s with nested := s.nested + 1 } (.archiveBegin n p), []))
    ∧ (s.currCache = none →
        dispatch (fuel + 1) s (.archiveBegin n p)
          = some ({ s with archives := s.archives ++ [⟨n, []⟩],
                           currCache := some (.arch s.archives.length) }, []))
    ∧ (s.currCache.isSome = true → s.nested ≠ 0 →
        dispatch (fuel + 1) s .archiveEnd
          = some (pushCache { s with nested := s.nested - 1 } .archiveEnd, []))
    ∧ (s.currCache = none ∨ s.nested = 0 →
        dispatch (fuel + 1) s .archiveEnd
          = some ({ s with currCache := none }, [])) := by
  refine ⟨fun h => ?_, fun h => ?_, fun h hn => ?_, fun h => ?_⟩
  · simp [dispatch, h]
  · simp [dispatch, h]
  · simp [dispatch, h, hn]
  · rcases h with h | h
    · simp [dispatch, h]
    · simp [dispatch, h]

/-- Witness for `nested_counter_amended`: stream creation while Idle and
stream closing with zero counter, at concrete states. -/
theorem nested_counter_amended_witness :
    dispatch 1 initFilter (.archiveBegin "A" [])
      = some (⟨[⟨"A", []⟩], [], some (.arch 0), 0, false⟩, [])
    ∧ dispatch 1 ⟨[⟨"A", []⟩], [], some (.arch 0), 0, false⟩ Cmd.archiveEnd
      = some (⟨[⟨"A", []⟩], [], none, 0, false⟩, []) :=
  ⟨(nested_counter_amended 0 initFilter "A" []).2.1 rfl,
   (nested_counter_amended 0 ⟨[⟨"A", []⟩], [], some (.arch 0), 0, false⟩ "A" []).2.2.2
     (Or.inr rfl)⟩

/-- An output is scope-clean when it is not a directly forwarded
`BeginArchive`, `EndArchive`, `BeginObjectInstance`, `EndObjectInstance` or
`ObjectInstance`; reported errors and forwards of any other operation
(including `ReadArchive`) are scope-clean. -/
def scopeOk : Output → Bool
  | .fwd (.archiveBegin _ _) => false
  | .fwd .archiveEnd => false
  | .fwd (.objectBegin _) => false
  | .fwd .objectEnd => false
  | .fwd (.objectInstance _) => false
  | _ => true

/-- A replay driven by a per-command processor that only emits scope-clean
outputs itself only emits scope-clean outputs. -/
theorem replayWith_scopeOk
    (d : InlineArchiveFilter → Cmd → Option (InlineArchiveFilter × List Output))
    (hd : ∀ s c r, d s c = some r → r.2.all scopeOk = true) :
    ∀ l s r, replayWith d s l = some r → r.2.all scopeOk = true := by
  intro l
  induction l with
  | nil =>
      intro s r h
      simp only [replayWith, Option.some.injEq] at h
      cases h
      rfl
  | cons c cs ih =>
      intro s r h
      simp only [replayWith] at h
      split at h
      · exact absurd h (by simp)
      · rename_i s1 o1 hd1
        split at h
        · exact absurd h (by simp)
        · rename_i s2 o2 hrest
          cases h
          rw [List.all_append, Bool.and_eq_true]
          exact And.intro (hd s c (s1, o1) hd1) (ih s1 (s2, o2) hrest)

/-- Every output ever produced by dispatch, at any replay depth, is
scope-clean: the five bracket/reference scope operations other than
`ReadArchive` are consumed (as state transitions, buffered commands, replays
or reported errors) and never forwarded to the next stage. -/
theorem dispatch_scopeOk :
    ∀ fuel s c r, dispatch fuel s c = some r → r.2.all scopeOk = true := by
  intro fuel
  induction fuel with
  | zero =>
      intro s c r h
      exact absurd h (by simp [dispatch])
  | succ fuel' ih =>
      intro s c r h
      have hrep := replayWith_scopeOk (fun s1 c1 => dispatch fuel' s1 c1)
        (fun s1 c1 r1 h1 => ih s1 c1 r1 h1)
      cases c with
      | archiveBegin n p =>
          simp only [dispatch] at h
          split at h <;> (cases h; simp)
      | archiveEnd =>
          simp only [dispatch] at h
          split at h <;> (cases h; simp)
      | readArchive n cb p =>
          simp only [dispatch] at h
          split at h
          · cases h; simp
          · split at h
            · exact hrep _ _ _ h
            · cases h; simp [scopeOk]
      | objectBegin n =>
          simp only [dispatch] at h
          split at h <;> (cases h; simp)
      | objectEnd =>
          simp only [dispatch] at h
          split at h
          · cases h; simp
          · split at h <;> (cases h; simp)
      | objectInstance n =>
          simp only [dispatch] at h
          split at h
          · cases h; simp
          · split at h
            · exact hrep _ _ _ h
            · cases h; simp [scopeOk]
      | archiveRecord ty str =>
          simp only [dispatch] at h
          split at h <;> (cases h; simp [scopeOk])
      | declare nm dc =>
          simp only [dispatch] at h
          split at h <;> (cases h; simp [scopeOk])
      | generic proc args =>
          simp only [dispatch] at h
          split at h <;> (cases h; simp [scopeOk])

/-- Claim C9: in every filter state (reachable or not), dispatching any
operation — in particular any of `BeginArchive`, `EndArchive`,
`BeginObjectInstance`, `EndObjectInstance`, `ObjectInstance` — never forwards
one of those five scope operations directly to the next-stage collaborator:
every output the dispatch produces, including outputs of nested replays, is
scope-clean, so among the scope operations only `ReadArchive` can ever be
forwarded. -/
theorem scope_ops_never_forwarded (fuel : Nat) (s s2 : InlineArchiveFilter)
    (c : Cmd) (outs : List Output)
    (h : dispatch fuel s c = some (s2, outs)) :
    outs.all scopeOk = true :=
  dispatch_scopeOk fuel s c (s2, outs) h

/-- Witness for `scope_ops_never_forwarded`: dispatching an unresolved
`ObjectInstance` at the initial state yields only the scope-clean error
output. -/
theorem scope_ops_never_forwarded_witness :
    List.all [Output.err ErrorCode.EqE_BadHandle "Bad object name \"Q\""] scopeOk = true :=
  scope_ops_never_forwarded 1 initFilter initFilter (.objectInstance "Q")
    [Output.err ErrorCode.EqE_BadHandle "Bad object name \"Q\""] (by decide)

end Aqsis
